import Mathlib

/-!
Shallow embedding of the replication protocol of `src/proj/hospital_a.py`:
the event publishers (`PatientCollection.post`/`.delete`,
`PatientItem.put`/`.delete`), the broker consumer (`start_consumer` and its
nested `callback`), and the apply logic mapping incoming events onto the
local SQLite store.

Modelling conventions:
- `datetime` timestamps are modelled as `Nat` (ISO-8601 strings are
  order-isomorphic to their instants; the code never does arithmetic on
  them beyond assignment).
- The SQLAlchemy-backed table is modelled as a `List Patient` (rows in
  insertion order, primary key `id` unique in any reachable store).
- Session-vs-durable semantics: each `callback` invocation runs inside a
  fresh `with app.app_context():` block; assignments to a fetched ORM
  object are pending session state that is rolled back when the context
  is torn down unless `db.session.commit()` runs in that invocation.  The
  functions below compute the durable store after context teardown, and
  additionally emit the list of observable `Act`s in order (broker
  acknowledgement, entry into the apply logic, transaction commits).
- `basic_consume(..., auto_ack=True)` at line 216 means the broker
  acknowledges the message on delivery, before the callback body runs;
  `consumeStep` therefore places `Act.ack` in front of everything the
  callback does.
- `json.loads(body)` at line 185 is not guarded by any try/except; a body
  that fails to decode (or lacks a required key) raises an uncaught
  exception out of the callback, modelled as `Except.error`.
-/

/-- Row of the `Patient` table (`hospital_a.py` lines 25-30): integer primary
key, name, age, diagnosis text and last-update timestamp. -/
structure Patient where
  id : Int
  name : String
  age : Int
  diagnosis_TEXT : String
  last_update : Nat
deriving Repr, DecidableEq

/-- The local store: the rows of the `Patient` table in insertion order. -/
abbrev Store := List Patient

/-- `Patient.query.get(i)`: primary-key lookup. -/
def storeGet (s : Store) (i : Int) : Option Patient :=
  s.find? (fun p => p.id == i)

/-- A decoded, well-formed change event, typed by its `action` field exactly
as the consumer dispatches on it (`"add_or_update"`, `"delete"`,
`"delete_all"` — the spec calls these upsert / delete / clear_all).  The
constructors carry precisely the fields the corresponding callback branch
reads from the decoded dict. -/
inductive ChangeEvent where
  | addOrUpdate (id : Int) (name : String) (age : Int)
      (diagnosis_TEXT : String) (last_update : Nat)
  | delete (id : Int)
  | deleteAll
deriving Repr, DecidableEq

/-- A decoded message: its `origin` field plus the typed event. -/
structure Msg where
  origin : String
  ev : ChangeEvent
deriving Repr, DecidableEq

/-- A delivered message body: either it decodes to a message, or
`json.loads` (or a required-key access such as `data["origin"]`) raises. -/
inductive Body where
  | invalid
  | msg (m : Msg)
deriving Repr, DecidableEq

/-- The uncaught Python exception escaping the callback on a body that
fails to decode. -/
inductive PyError where
  | decodeError
deriving Repr, DecidableEq

/-- Observable actions of one consumer step, in order of occurrence:
broker acknowledgement, entry into the apply logic (the code past the
self-origin check), and a `db.session.commit()` call. -/
inductive Act where
  | ack
  | applyCall
  | commit
deriving Repr, DecidableEq

/-- Apply logic of `callback` (`hospital_a.py` lines 191-215): the durable
store after the app context is torn down, together with the commits issued.

- `add_or_update`, id present (lines 193-197): the fetched ORM object's
  fields are assigned, but `db.session.commit()` is only on the `else`
  branch, so the pending changes are rolled back at context teardown and
  the durable store is unchanged.  No `last_update` comparison is made.
- `add_or_update`, id absent (lines 198-207): a new row is inserted with
  the event's fields and committed.
- `delete` (lines 208-212): the row is deleted and committed if present,
  nothing happens if absent.
- `delete_all` (lines 213-215): `Patient.query.delete()` removes every row,
  then commits. -/
def applyEngine (ev : ChangeEvent) (s : Store) : Store × List Act :=
  match ev with
  | .addOrUpdate i _nm _ag _dg _ts =>
    match storeGet s i with
    | some _ => (s, [])
    | none =>
      ( s ++ [{ id := i, name := _nm, age := _ag,
                diagnosis_TEXT := _dg, last_update := _ts }],
        [Act.commit] )
  | .delete i =>
    match storeGet s i with
    | some _ => (s.filter (fun q => !(q.id == i)), [Act.commit])
    | none => (s, [])
  | .deleteAll => ([], [Act.commit])

/-- The body of `callback` (`hospital_a.py` lines 184-215) for the node
whose `HOSPITAL_ID` is `hid`: decode (raising on failure), discard
self-originated messages before any store access, otherwise run the apply
logic. -/
def callbackRun (hid : String) (b : Body) (s : Store) :
    Except PyError (Store × List Act) :=
  match b with
  | .invalid => .error .decodeError
  | .msg m =>
    if m.origin == hid then
      .ok (s, [])
    else
      let r := applyEngine m.ev s
      .ok (r.1, Act.applyCall :: r.2)

/-- One consumer step as configured at line 216: `auto_ack=True`, so the
broker acknowledgement happens on delivery, before the callback body runs;
it is recorded first in the trace.  On an uncaught exception the durable
store is unchanged (no branch commits before its possible raise point). -/
def consumeStep (hid : String) (b : Body) (s : Store) :
    (Except PyError Store) × List Act :=
  match callbackRun hid b s with
  | .ok (s2, tr) => (.ok s2, Act.ack :: tr)
  | .error e => (.error e, [Act.ack])

/-- Wire form of a published event: the dict literally built at the four
publish sites, `None` modelled as `none`. -/
structure WireEvent where
  action : String
  id : Option Int
  name : Option String
  age : Option Int
  diagnosis_TEXT : Option String
  last_update : Option Nat
  origin : String
deriving Repr, DecidableEq

/-- `HOSPITAL_ID = os.getenv("HOSPITAL_ID", "hospital_a")` (line 22):
the environment value when the variable is set, the default otherwise. -/
def hospitalId (env : Option String) : String :=
  env.getD "hospital_a"

/-- Event built by `PatientCollection.post` (lines 70-78) after creating
patient `p`. -/
def postEvent (p : Patient) (hid : String) : WireEvent :=
  { action := "add_or_update", id := some p.id, name := some p.name,
    age := some p.age, diagnosis_TEXT := some p.diagnosis_TEXT,
    last_update := some p.last_update, origin := hid }

/-- Event built by `PatientItem.put` (lines 136-144) after updating
patient `p`. -/
def putEvent (p : Patient) (hid : String) : WireEvent :=
  { action := "add_or_update", id := some p.id, name := some p.name,
    age := some p.age, diagnosis_TEXT := some p.diagnosis_TEXT,
    last_update := some p.last_update, origin := hid }

/-- Event built by `PatientItem.delete` (lines 154-162) after deleting
patient `p`: it carries the deleted record's name, age, diagnosis and
last_update alongside its id. -/
def deleteItemEvent (p : Patient) (hid : String) : WireEvent :=
  { action := "delete", id := some p.id, name := some p.name,
    age := some p.age, diagnosis_TEXT := some p.diagnosis_TEXT,
    last_update := some p.last_update, origin := hid }

/-- Event built by `PatientCollection.delete` (lines 85-93) after deleting
all patients: every record field is null. -/
def deleteAllEvent (hid : String) : WireEvent :=
  { action := "delete_all", id := none, name := none, age := none,
    diagnosis_TEXT := none, last_update := none, origin := hid }

/-- Sample row used by the concrete witnesses and counterexamples below:
id 1, name Jane, age 40, diagnosis flu, last_update 5. -/
def jane : Patient := ⟨1, "Jane", 40, "flu", 5⟩

/-! Helper lemmas about `storeGet`. -/

/-- Looking up `p.id` after appending `p` to a store in which it was absent
finds `p`. -/
theorem storeGet_append_self (s : Store) (p : Patient)
    (h : storeGet s p.id = none) : storeGet (s ++ [p]) p.id = some p := by
  induction s with
  | nil => simp [storeGet, List.find?]
  | cons q t ih =>
    unfold storeGet at h ⊢
    rw [List.cons_append, List.find?]
    rw [List.find?] at h
    cases hq : (q.id == p.id) with
    | true => rw [hq] at h; exact absurd h (by simp)
    | false =>
      rw [hq] at h
      exact ih h

/-- After filtering out every row with id `i`, looking up `i` fails. -/
theorem storeGet_filter_self (s : Store) (i : Int) :
    storeGet (s.filter (fun q => !(q.id == i))) i = none := by
  induction s with
  | nil => rfl
  | cons q t ih =>
    rw [List.filter_cons]
    cases hq : (q.id == i) with
    | true => simpa [hq] using ih
    | false =>
      simp only [hq, Bool.not_false, if_pos]
      unfold storeGet
      rw [List.find?]
      simp only [hq]
      exact ih

/-! Claim theorems. -/

/-- C1 (code_bug evidence): last-write-wins fails on the code.  Starting
from the empty store and applying an upsert for id 1 with timestamp 1 and
then an upsert for the same id with the strictly greater timestamp 2, the
final durable store keeps the fields of the FIRST event: the callback makes
no `last_update` comparison, and its existing-id branch never commits, so
the second event's fields are rolled back at context teardown.  The claim
says the final state equals the fields of the timestamp-2 event. -/
theorem lww_violated_at_input :
    (applyEngine (ChangeEvent.addOrUpdate 1 "Janet" 41 "cold" 2)
      (applyEngine (ChangeEvent.addOrUpdate 1 "Jane" 40 "flu" 1) []).1).1
    = [(⟨1, "Jane", 40, "flu", 1⟩ : Patient)] := by
  decide

/-- C2 (code_bug evidence): because `basic_consume` is configured with
`auto_ack=True`, the broker acknowledgement is the first observable action
of a consumer step, occurring before the apply logic runs and before its
transaction commits — here on a fresh add_or_update from another node the
trace is acknowledgement, then apply entry, then commit.  The claim says
the message is acknowledged only after the apply transaction has
committed. -/
theorem early_ack_trace :
    consumeStep "hospital_a"
      (Body.msg ⟨"hospital_b", ChangeEvent.addOrUpdate 1 "Jane" 40 "flu" 1⟩) []
    = (.ok [(⟨1, "Jane", 40, "flu", 1⟩ : Patient)],
       [Act.ack, Act.applyCall, Act.commit]) := rfl

/-- C3 (code_bug evidence): `json.loads(body)` is not wrapped in any
try/except, so a body that fails to decode raises an uncaught exception
out of the callback for every store state, instead of being logged and
discarded as the claim states. -/
theorem decode_failure_uncaught (s : Store) :
    callbackRun "hospital_a" Body.invalid s = .error .decodeError := rfl

/-- C4: the apply logic is idempotent on the durable store — for every
valid event (upsert, delete or clear_all) and every store state, applying
the same event twice yields the same durable store as applying it once. -/
theorem apply_idempotent (ev : ChangeEvent) (s : Store) :
    (applyEngine ev (applyEngine ev s).1).1 = (applyEngine ev s).1 := by
  cases ev with
  | addOrUpdate i nm ag dg ts =>
    cases h : storeGet s i with
    | some q => simp [applyEngine, h]
    | none =>
      have h2 : storeGet (s ++ [(⟨i, nm, ag, dg, ts⟩ : Patient)]) i =
          some (⟨i, nm, ag, dg, ts⟩ : Patient) :=
        storeGet_append_self s ⟨i, nm, ag, dg, ts⟩ h
      simp [applyEngine, h, h2]
  | delete i =>
    cases h : storeGet s i with
    | some q =>
      have h2 := storeGet_filter_self s i
      simp [applyEngine, h, h2]
    | none => simp [applyEngine, h]
  | deleteAll => simp [applyEngine, storeGet]

/-- C5: self-echo suppression — a message whose origin equals this node's
identifier is discarded before the apply logic runs: the callback returns
with the store unchanged and an empty action trace (in particular no
`applyCall` and no commit). -/
theorem self_echo_suppressed (hid : String) (m : Msg) (s : Store)
    (h : m.origin = hid) :
    callbackRun hid (Body.msg m) s = .ok (s, []) := by
  simp [callbackRun, h]

/-- Witness for C5 at a concrete self-originated message and a nonempty
store. -/
theorem self_echo_suppressed_witness :
    ("hospital_a" : String) = "hospital_a" ∧
    callbackRun "hospital_a" (Body.msg ⟨"hospital_a", ChangeEvent.deleteAll⟩)
      [jane]
    = .ok ([jane], []) :=
  ⟨rfl, self_echo_suppressed "hospital_a"
      ⟨"hospital_a", ChangeEvent.deleteAll⟩ [jane] rfl⟩

/-- C6: a `delete_all` (clear_all) event empties the durable store for any
prior store state, unconditionally — no record content, origin or
timestamp is consulted — and commits. -/
theorem clear_all_empties (s : Store) :
    applyEngine ChangeEvent.deleteAll s = ([], [Act.commit]) := rfl

/-- C7: when an `add_or_update` event's target id already exists in the
store, the apply logic issues no commit (the `db.session.commit()` call is
reached only on the record-creation branch) and the durable store is
unchanged by the callback. -/
theorem existing_id_no_commit (i : Int) (nm : String) (ag : Int)
    (dg : String) (ts : Nat) (s : Store)
    (h : (storeGet s i).isSome) :
    applyEngine (ChangeEvent.addOrUpdate i nm ag dg ts) s = (s, []) := by
  cases h2 : storeGet s i with
  | some q => simp [applyEngine, h2]
  | none => rw [h2] at h; exact absurd h (by simp)

/-- Witness for C7: a store holding id 1 with timestamp 5, hit by an
upsert for id 1 carrying the newer timestamp 9 — durably a no-op, with no
commit in the trace. -/
theorem existing_id_no_commit_witness :
    (storeGet [jane] 1).isSome = true ∧
    applyEngine (ChangeEvent.addOrUpdate 1 "Janet" 41 "cold" 9) [jane]
    = ([jane], []) :=
  ⟨by decide, existing_id_no_commit 1 "Janet" 41 "cold" 9 [jane] (by decide)⟩

/-- C8 counterexample: the claim says name, age and diagnosis are absent
for every non-upsert event, but the event published by
`PatientItem.delete` is a `delete` event that carries the deleted record's
name (and likewise its age, diagnosis and last_update). -/
theorem delete_event_carries_fields :
    (deleteItemEvent jane "hospital_a").action = "delete" ∧
    (deleteItemEvent jane "hospital_a").name ≠ none := by
  constructor
  · rfl
  · simp [deleteItemEvent]

/-- C8 amended: the actual field shape per published action — upsert
events (from post and put) carry id, name, age, diagnosis and last_update;
delete events carry id and additionally the deleted record's name, age,
diagnosis and last_update; delete_all (clear_all) events carry null for
id and for every record field. -/
theorem event_shapes (p : Patient) (hid : String) :
    (postEvent p hid).action = "add_or_update" ∧
    (postEvent p hid).id = some p.id ∧
    (postEvent p hid).name = some p.name ∧
    (postEvent p hid).age = some p.age ∧
    (postEvent p hid).diagnosis_TEXT = some p.diagnosis_TEXT ∧
    (postEvent p hid).last_update = some p.last_update ∧
    (putEvent p hid).action = "add_or_update" ∧
    (putEvent p hid).id = some p.id ∧
    (putEvent p hid).name = some p.name ∧
    (deleteItemEvent p hid).action = "delete" ∧
    (deleteItemEvent p hid).id = some p.id ∧
    (deleteItemEvent p hid).name = some p.name ∧
    (deleteItemEvent p hid).age = some p.age ∧
    (deleteItemEvent p hid).diagnosis_TEXT = some p.diagnosis_TEXT ∧
    (deleteItemEvent p hid).last_update = some p.last_update ∧
    (deleteAllEvent hid).action = "delete_all" ∧
    (deleteAllEvent hid).id = none ∧
    (deleteAllEvent hid).name = none ∧
    (deleteAllEvent hid).age = none ∧
    (deleteAllEvent hid).diagnosis_TEXT = none ∧
    (deleteAllEvent hid).last_update = none := by
  repeat (first | constructor | rfl)

/-- C9: a `delete` event whose target id is absent from the store is a
no-op for the consumer — the callback returns successfully (no error is
raised or surfaced), the durable store is unchanged, and no commit is
issued. -/
theorem delete_absent_noop (hid org : String) (i : Int) (s : Store)
    (h1 : org ≠ hid) (h2 : storeGet s i = none) :
    callbackRun hid (Body.msg { origin := org, ev := ChangeEvent.delete i }) s
    = .ok (s, [Act.applyCall]) := by
  simp [callbackRun, h1, applyEngine, h2]

/-- Witness for C9: deleting id 2 on a store holding only id 1. -/
theorem delete_absent_noop_witness :
    ("hospital_b" : String) ≠ "hospital_a" ∧
    storeGet [jane] 2 = none ∧
    callbackRun "hospital_a" (Body.msg ⟨"hospital_b", ChangeEvent.delete 2⟩)
      [jane]
    = .ok ([jane], [Act.applyCall]) :=
  ⟨by decide, by decide,
   delete_absent_noop "hospital_a" "hospital_b" 2 [jane]
     (by decide) (by decide)⟩

/-- C10 counterexample: when the HOSPITAL_ID environment variable is set
to the empty string, `os.getenv("HOSPITAL_ID", "hospital_a")` returns the
empty string and a published event carries an empty origin, contradicting
the claim that every published event carries a non-empty origin. -/
theorem empty_origin_possible :
    (postEvent jane (hospitalId (some ""))).origin = "" := rfl

/-- C10 amended: every event published by any of the four publish sites
carries `origin` equal to this node's identifier `HOSPITAL_ID`, and that
identifier is non-empty provided the HOSPITAL_ID environment variable is
not set to the empty string (it defaults to "hospital_a" when unset). -/
theorem origin_attached (p : Patient) (env : Option String)
    (h : env ≠ some "") :
    (postEvent p (hospitalId env)).origin = hospitalId env ∧
    (putEvent p (hospitalId env)).origin = hospitalId env ∧
    (deleteItemEvent p (hospitalId env)).origin = hospitalId env ∧
    (deleteAllEvent (hospitalId env)).origin = hospitalId env ∧
    hospitalId env ≠ "" := by
  refine ⟨rfl, rfl, rfl, rfl, ?_⟩
  cases env with
  | none => simp [hospitalId]
  | some v =>
    simp only [hospitalId, Option.getD]
    intro hv
    exact h (by rw [hv])

/-- Witness for C10 at a concrete patient with the environment variable
unset. -/
theorem origin_attached_witness :
    (none : Option String) ≠ some "" ∧
    ((postEvent jane (hospitalId none)).origin = hospitalId none ∧
     (putEvent jane (hospitalId none)).origin = hospitalId none ∧
     (deleteItemEvent jane (hospitalId none)).origin = hospitalId none ∧
     (deleteAllEvent (hospitalId none)).origin = hospitalId none ∧
     hospitalId none ≠ "") :=
  ⟨by simp, origin_attached jane none (by simp)⟩
